import Mathlib

/-!
Verification development for the WorkSpace-AI python backend
(`src/python_backend/ai_modules/analyzers.py` and
`src/python_backend/ai_modules/focus_score_monitor.py`).

Texts are modelled as `List Char`; the OCR step, the image codec, the
OpenCV detectors and the optional joblib model are external collaborators
and enter the model as explicit inputs.  Numeric scores are rationals so
that python float arithmetic on these small decimal constants is exact;
python's `round(x, n)` (round-half-to-even) is modelled by `pyRound`.
Advisory string lists (recommendations, warning texts) and timestamps
formatted for display are not part of any decision and are omitted from
the result structures.
-/

namespace WorkspaceAI

abbrev Text := List Char

/-- Python `str.lower()`, ASCII (the keyword tables are ASCII). -/
def lowerText (t : Text) : Text := t.map Char.toLower

/-- Whitespace characters removed by python `str.strip()`. -/
def pyWhite (c : Char) : Bool :=
  c = ' ' || c = '\t' || c = '\n' || c = '\r' || c = '\x0b' || c = '\x0c'

/-- Python `str.strip()`. -/
def stripT (t : Text) : Text :=
  ((t.dropWhile pyWhite).reverse.dropWhile pyWhite).reverse

/-- Boolean substring containment on lists (python `needle in haystack`). -/
def isSubstr (n : Text) : Text → Bool
  | [] => n.isEmpty
  | c :: cs => n.isPrefixOf (c :: cs) || isSubstr n cs

def containsKw (t : Text) (kw : String) : Bool := isSubstr kw.toList t

/-- Round-half-to-even of a rational to an integer (python / numpy rounding). -/
def roundHalfEven (q : ℚ) : ℤ :=
  if q - ⌊q⌋ < 1/2 then ⌊q⌋
  else if 1/2 < q - ⌊q⌋ then ⌊q⌋ + 1
  else if ⌊q⌋ % 2 = 0 then ⌊q⌋ else ⌊q⌋ + 1

/-- Python `round(q, n)` for nonnegative `n` (round-half-to-even on floats). -/
def pyRound (n : ℕ) (q : ℚ) : ℚ := (roundHalfEven (q * 10 ^ n) : ℚ) / 10 ^ n

/-! ## Content signal tables (`analyzers.py`, `detect_*_content`) -/

/-- `educational_keywords` from `detect_educational_content`, transcribed in
source order (including the duplicate "khan academy" entry). -/
def educationalKeywords : List String := [
  "mathematics", "math", "calculus", "algebra", "geometry", "trigonometry",
  "statistics", "probability", "discrete math", "linear algebra",
  "physics", "chemistry", "biology", "science", "engineering",
  "computer science", "programming", "coding", "software",
  "python", "javascript", "java", "c++", "react", "node.js", "html", "css",
  "machine learning", "artificial intelligence", "data science", "algorithms",
  "tutorial", "learn", "education", "educational", "study", "studying",
  "lecture", "course", "class", "lesson", "academic", "university",
  "college", "school", "instructor", "professor", "teacher",
  "khan academy", "coursera", "edx", "udemy", "mit", "stanford",
  "harvard", "opencourseware", "codecademy", "freecodecamp",
  "how to", "explanation", "guide", "introduction to", "basics of",
  "fundamentals", "concepts", "theory", "practice", "examples",
  "solved", "problem solving", "step by step", "demonstration",
  "walkthrough", "explained", "understanding",
  "calculus for engineering", "organic chemistry", "data structures",
  "web development", "machine learning course", "physics explained",
  "programming tutorial", "math help", "study guide",
  "3blue1brown", "crash course", "ted-ed", "khan academy",
  "mit opencourseware", "professor leonard", "organic chemistry tutor",
  "patrickjmt", "the coding train", "sentdex", "corey schafer",
  "integration", "derivative", "formula", "equation"]

/-- The strong educational terms weighted `+2` in the source. -/
def strongEducational : List String :=
  ["tutorial", "learn", "education", "course", "lecture", "explained"]

/-- `high_distraction_keywords` from `detect_high_distraction_content`. -/
def highDistractionKeywords : List String := [
  "funny", "memes", "viral", "comedy", "hilarious", "laugh", "lol",
  "prank", "pranks", "fail", "fails", "compilation", "reaction", "roast",
  "entertainment", "gossip", "drama", "scandal", "cringe",
  "music video", "song", "dance", "party", "club", "concert",
  "remix", "beat", "lyrics", "album",
  "top 10", "top 5", "best of", "worst of", "vs", "versus",
  "ranking", "countdown", "tier list",
  "gameplay", "gaming", "streamer", "let\x27s play", "speedrun",
  "game review", "gaming news", "twitch", "stream highlight",
  "montage", "clips",
  "tiktok", "tiktoker", "influencer", "vlog", "daily vlog",
  "lifestyle", "day in my life", "grwm", "outfit",
  "shocking", "unbelievable", "amazing", "incredible", "insane",
  "mind blown", "you won\x27t believe", "gone wrong", "gone wild"]

/-- High-distraction terms weighted `+5` in the source. -/
def strongHighDistraction : List String :=
  ["funny", "memes", "viral", "prank", "fail", "comedy", "hilarious"]

/-- High-distraction terms weighted `+3` in the source. -/
def midHighDistraction : List String :=
  ["music video", "gaming", "entertainment", "gossip"]

/-- `medium_distraction_keywords` from `detect_medium_distraction_content`. -/
def mediumDistractionKeywords : List String := [
  "facebook", "instagram", "twitter", "snapchat", "linkedin",
  "social media", "social", "feed", "timeline", "posts", "stories",
  "tweet", "retweet", "hashtag", "follow", "followers",
  "shopping", "buy", "sale", "deal", "discount", "product review",
  "unboxing", "haul", "amazon", "flipkart", "myntra", "ebay",
  "price", "offers", "cart", "checkout",
  "breaking news", "celebrity news", "sports news", "latest news",
  "entertainment news", "gossip news", "politics", "election",
  "reddit", "meme", "chat", "messaging", "whatsapp", "telegram"]

/-! ## Regex pattern tables

Each `re.search` pattern of the source has one of three concrete shapes;
only the truthiness of the search result is ever used, so a pattern is
modelled by the existence of a match.  `.` in these patterns does not
match a newline (python default). -/

/-- `.+` followed by one of the `post` literals: consume one or more
non-newline characters, then require some `post` alternative as a prefix. -/
def dotPlusThen (post : List String) : Text → Bool
  | [] => false
  | c :: cs =>
    if c = '\n' then false
    else post.any (fun p => p.toList.isPrefixOf cs) || dotPlusThen post cs


/-- Search for `(pre₁|…) .+ (post₁|…)` anywhere in the text, where the
separating spaces of the source patterns are folded into the literals. -/
def searchPrePost (pres posts : List String) : Text → Bool
  | [] => false
  | c :: cs =>
    (pres.any fun p =>
      p.toList.isPrefixOf (c :: cs) &&
      dotPlusThen posts ((c :: cs).drop p.toList.length)) ||
    searchPrePost pres posts cs

/-- Search for a plain alternation of literals (`(a|b|c)` with no `.+`). -/
def searchAlt (alts : List String) (t : Text) : Bool :=
  alts.any (fun a => isSubstr a.toList t)

/-- Search for `(top \d+|best) .+ (post₁|…)` (the one pattern with `\d+`). -/
def searchTopBest (posts : List String) : Text → Bool
  | [] => false
  | c :: cs =>
    (let l := c :: cs
     (("top ".toList.isPrefixOf l) &&
       (let r := l.drop 4
        let ds := r.takeWhile Char.isDigit
        decide (ds.length ≠ 0) && ((r.drop ds.length).head? = some ' ') &&
          dotPlusThen posts (r.drop (ds.length + 1))) ||
     (("best ".toList.isPrefixOf l) && dotPlusThen posts (l.drop 5)))) ||
    searchTopBest posts cs

/-- The six `educational_patterns`, each contributing `+3` when matched. -/
def educationalPatternHits (t : Text) : ℕ :=
  (if searchPrePost ["how to "]
      [" programming", " coding", " math", " science", " engineering"] t then 1 else 0) +
  (if searchPrePost ["tutorial ", "guide ", "course "]
      [" programming", " coding", " development"] t then 1 else 0) +
  (if searchPrePost ["learn ", "learning "]
      [" python", " javascript", " math", " calculus", " physics"] t then 1 else 0) +
  (if searchPrePost ["introduction to ", "basics of "]
      [" computer science", " programming", " mathematics"] t then 1 else 0) +
  (if searchPrePost ["solving ", "solved "]
      [" problems", " equations", " algorithms"] t then 1 else 0) +
  (if searchPrePost ["step by step ", "walkthrough "]
      [" tutorial", " guide", " explanation"] t then 1 else 0)

/-- The eight `high_distraction_patterns`, each contributing `+4` when matched. -/
def highPatternHits (t : Text) : ℕ :=
  (if searchPrePost ["funny ", "hilarious ", "comedy "]
      [" video", " compilation", " moments"] t then 1 else 0) +
  (if searchPrePost ["fail ", "epic fail "]
      [" compilation", " moments", " videos"] t then 1 else 0) +
  (if searchTopBest [" funny", " epic", " fails", " moments"] t then 1 else 0) +
  (if searchPrePost ["reaction to ", "reacting to "]
      [" video", " song", " movie"] t then 1 else 0) +
  (if searchPrePost ["prank ", "pranking "]
      [" people", " friends", " family"] t then 1 else 0) +
  (if searchPrePost ["roasting ", "roast "]
      [" people", " celebrities", " youtubers"] t then 1 else 0) +
  (if searchAlt ["gone wrong", "gone wild", "gone sexual"] t then 1 else 0) +
  (if searchAlt ["you won\x27t believe", "shocking", "unbelievable"] t then 1 else 0)

/-! ## The three detectors -/

/-- Weight of one educational keyword occurrence. -/
def eduWeight (kw : String) : ℕ := if kw ∈ strongEducational then 2 else 1

/-- `detect_educational_content`: weighted keyword + pattern score. -/
def educationScore (t : Text) : ℕ :=
  if t = [] then 0
  else
    let tl := lowerText t
    (educationalKeywords.map
      (fun kw => if containsKw tl kw then eduWeight kw else 0)).sum +
    3 * educationalPatternHits tl

/-- `is_educational`: the educational rule qualifies at score ≥ 2. -/
def is_educational (t : Text) : Bool := 2 ≤ educationScore t

/-- Educational keywords detected in the text (the `detected_keywords`
list of the source, without the pattern pseudo-entries). -/
def eduDetected (t : Text) : List String :=
  if t = [] then []
  else educationalKeywords.filter (containsKw (lowerText t))

/-- Weight of one high-distraction keyword occurrence. -/
def highWeight (kw : String) : ℕ :=
  if kw ∈ strongHighDistraction then 5
  else if kw ∈ midHighDistraction then 3
  else 2

/-- `detect_high_distraction_content`: weighted keyword + pattern score. -/
def highDistractionScore (t : Text) : ℕ :=
  if t = [] then 0
  else
    let tl := lowerText t
    (highDistractionKeywords.map
      (fun kw => if containsKw tl kw then highWeight kw else 0)).sum +
    4 * highPatternHits tl

/-- High-distraction keywords detected in the text (the `detected_keywords`
list of the source, without the pattern pseudo-entries). -/
def highDetected (t : Text) : List String :=
  if t = [] then []
  else highDistractionKeywords.filter (containsKw (lowerText t))

/-- `is_high_distraction`: the rule qualifies at score ≥ 3. -/
def is_high_distraction (t : Text) : Bool := 3 ≤ highDistractionScore t

/-- `detect_medium_distraction_content`: the matched keyword list. -/
def mediumDetected (t : Text) : List String :=
  if t = [] then []
  else mediumDistractionKeywords.filter (containsKw (lowerText t))

/-- The medium rule qualifies at ≥ 1 keyword match. -/
def is_medium_distraction (t : Text) : Bool := mediumDetected t ≠ []

/-! ## `extract_website` and `extract_tab_title`

`extract_website` searches the lowercased text for the first match of
`\b(?:[a-zA-Z0-9-]+\.)+(?:com|org|net|io|co|in|ai|gov|edu)\b`.
The matcher below reproduces the engine behaviour for this pattern:
left-to-right search over start positions with a word boundary, a
deterministic maximal `[a-zA-Z0-9-]+` run before each dot (the run is
followed by a literal `.`, so no shorter run can match), greedy
repetition of dot-terminated segments with backtracking into the
top-level-domain alternation, in source order. -/

def isWordChar (c : Char) : Bool := c.isAlphanum || c = '_'

def isDomChar (c : Char) : Bool := c.isAlphanum || c = '-'

/-- The TLD alternation, in the order the pattern lists it. -/
def tldList : List (List Char) :=
  ["com", "org", "net", "io", "co", "in", "ai", "gov", "edu"].map String.toList

/-- `\b` after a TLD: end of text or a non-word character. -/
def endBoundary (l : Text) : Bool :=
  match l with
  | [] => true
  | c :: _ => !isWordChar c

/-- Match the TLD alternation at the head of `l` followed by `\b`;
returns the matched length. -/
def matchTLD (l : Text) : Option ℕ :=
  (tldList.find? (fun t => t.isPrefixOf l && endBoundary (l.drop t.length))).map
    List.length

/-- Match `(?:[a-zA-Z0-9-]+\.)* (?:com|…)\b` at the head of `l`, preferring
the longer segment chain first (greedy `+`/`*` repetition). -/
def matchStarTLD : ℕ → Text → Option ℕ
  | 0, _ => none
  | fuel + 1, l =>
    let run := l.takeWhile isDomChar
    let rest := l.drop run.length
    let viaSeg : Option ℕ :=
      if run.length ≠ 0 ∧ rest.head? = some '.' then
        (matchStarTLD fuel (rest.drop 1)).map (fun n => run.length + 1 + n)
      else none
    match viaSeg with
    | some n => some n
    | none => matchTLD l

/-- Match the full domain pattern (one or more dot-terminated segments,
then a TLD with end boundary) at the head of `l`. -/
def matchDomainAt (l : Text) : Option ℕ :=
  let run := l.takeWhile isDomChar
  let rest := l.drop run.length
  if run.length ≠ 0 ∧ rest.head? = some '.' then
    (matchStarTLD l.length (rest.drop 1)).map (fun n => run.length + 1 + n)
  else none

/-- `re.search`: try every start position left to right, requiring the
leading word boundary (`prev` is the character before the position). -/
def searchDomain : Option Char → Text → Option Text
  | _, [] => none
  | prev, c :: cs =>
    let wPrev : Bool := match prev with | none => false | some p => isWordChar p
    let attempt : Option ℕ :=
      if wPrev ≠ isWordChar c then matchDomainAt (c :: cs) else none
    match attempt with
    | some n => some ((c :: cs).take n)
    | none => searchDomain (some c) cs

/-- `extract_website`: first domain-looking token of the lowercased OCR
text, or `"unknown"`. -/
def extract_website (t : Text) : String :=
  match searchDomain none (lowerText t) with
  | some m => String.mk m
  | none => "unknown"

/-- Strip leading and trailing non-alphanumeric characters
(`re.sub(r"^[^a-zA-Z0-9]+|[^a-zA-Z0-9]+$", "", line)`). -/
def trimNonAlnum (l : Text) : Text :=
  ((l.dropWhile (fun c => !c.isAlphanum)).reverse.dropWhile
    (fun c => !c.isAlphanum)).reverse

/-- Split a text at newline characters (python `str.split("\n")`). -/
def splitLines (t : Text) : List Text := t.splitOn '\n'

/-- `extract_tab_title`: first nonempty stripped line, with non-alphanumeric
characters trimmed from both ends. -/
def extract_tab_title (t : Text) : Text :=
  match ((splitLines t).map stripT).filter (fun l => l ≠ []) with
  | [] => []
  | first :: _ => trimNonAlnum first

/-! ## `analyze_screen_from_b64` -/

/-- The decision-relevant fields of the screen classification result. -/
structure ScreenResult where
  is_distraction : Bool
  distraction_score : ℕ
  productivity_score : ℕ
  content_type : String
  detection_method : String
  detected_keywords : List String
  deriving Repr, DecidableEq

/-- The optional joblib model: given `(website, task)` features it predicts
whether the sample is a distraction (`predict == 1`). -/
abbrev DistractionModel := String → Text → Bool

/-- The text-classification cascade of `analyze_screen_from_b64`, applied
to the OCR text once an image has been decoded: educational override,
then high-distraction blocking, then medium detection, then the optional
model, then the productive default. -/
def analyze_screen_text (ocr_text : Text) (mdl : Option DistractionModel) :
    ScreenResult :=
  if is_educational ocr_text then
    { is_distraction := false, distraction_score := 0, productivity_score := 100,
      content_type := "educational", detection_method := "educational_override",
      detected_keywords := eduDetected ocr_text }
  else if is_high_distraction ocr_text then
    { is_distraction := true,
      distraction_score := min 95 (highDistractionScore ocr_text * 10),
      productivity_score := 5,
      content_type := "high_distraction",
      detection_method := "high_distraction_blocking",
      detected_keywords := highDetected ocr_text }
  else if is_medium_distraction ocr_text then
    { is_distraction := true, distraction_score := 60, productivity_score := 40,
      content_type := "medium_distraction",
      detection_method := "medium_distraction_detected",
      detected_keywords := mediumDetected ocr_text }
  else
    let website := if ocr_text = [] then "unknown" else extract_website ocr_text
    let task := if ocr_text = [] then [] else extract_tab_title ocr_text
    let label : Option Bool := mdl.map (fun f => f website task)
    let isd : Bool := label.getD false
    { is_distraction := isd,
      distraction_score := if isd then 70 else 10,
      productivity_score := if isd then 30 else 90,
      content_type := "neutral",
      detection_method := if label.isSome then "model" else "neutral",
      detected_keywords := [] }

/-- `analyze_screen_from_b64` itself: the base64/image decode is external;
a decode failure is an uncaught exception (`binascii.Error` or a PIL
error), modelled as `Except.error` — there is no `try` around the decode
in this entry point.  On success the OCR text (empty when the OCR
dependencies are missing) is classified by the cascade. -/
def analyze_screen_from_b64 (decoded : Option Text)
    (mdl : Option DistractionModel) : Except String ScreenResult :=
  match decoded with
  | none => Except.error "b64decode/Image.open raised"
  | some ocr_text => Except.ok (analyze_screen_text ocr_text mdl)

/-! ## `analyze_distraction_from_window` -/

/-- The window metadata supplied by the caller: any of the dict keys may
be missing (`None` here); a non-dict argument is modelled as `none` at
the call site. -/
structure WindowInfo where
  title : Option String
  url : Option String
  process_name : Option String
  active_time : Option ℚ
  deriving Repr

/-- The decision-relevant fields of the window analysis result. -/
structure WindowResult where
  is_distraction : Bool
  distraction_score : ℕ
  suggested_action : Option String
  detected_indicators : List String
  content_type : String
  severity : String
  active_time_seconds : ℚ
  should_alert : Bool
  should_block : Bool
  should_warn : Bool
  should_close : Bool
  deriving Repr, DecidableEq

/-- Lowercased title of a window observation (missing key → `""`). -/
def windowTitle (w : WindowInfo) : Text := lowerText (w.title.getD "").toList

/-- Lowercased url of a window observation (missing key → `""`). -/
def windowUrl (w : WindowInfo) : Text := lowerText (w.url.getD "").toList

/-- `all_text = f"{title} {url}".strip()`. -/
def windowAllText (w : WindowInfo) : Text :=
  stripT (windowTitle w ++ [' '] ++ windowUrl w)

/-- `analyze_distraction_from_window`.  A non-dict argument (`none`)
leaves title/url empty and `active_time = 0`. -/
def analyze_distraction_from_window (wi : Option WindowInfo) : WindowResult :=
  let url := match wi with | none => [] | some w => windowUrl w
  let active_time : ℚ := match wi with
    | none => 0
    | some w => w.active_time.getD 0
  let all_text : Text := match wi with
    | none => stripT [' ']
    | some w => windowAllText w
  if is_educational all_text then
    { is_distraction := false, distraction_score := 0, suggested_action := none,
      detected_indicators := eduDetected all_text, content_type := "educational",
      severity := "none", active_time_seconds := active_time,
      should_alert := false, should_block := false, should_warn := false,
      should_close := false }
  else if is_high_distraction all_text then
    { is_distraction := true,
      distraction_score := min 95 (80 + highDistractionScore all_text),
      suggested_action := some "force-close",
      detected_indicators := highDetected all_text,
      content_type := "high_distraction", severity := "critical",
      active_time_seconds := active_time,
      should_alert := true, should_block := true, should_warn := false,
      should_close := true }
  else
    let medium_keywords := mediumDetected all_text
    let is_medium : Bool := medium_keywords ≠ []
    let is_youtube : Bool := isSubstr "youtube".toList url
    -- is_distraction / distraction_score / severity from the
    -- youtube-vs-other branching (severity is later overwritten in the
    -- progressive branch and unused in the neutral return)
    let scored : Bool × ℕ :=
      if is_youtube then
        (if medium_keywords ≠ [] then (true, 60) else (false, 20))
      else
        (if is_medium then (true, min 75 (medium_keywords.length * 15))
         else (false, 5))
    if is_medium ∨ (is_youtube ∧ medium_keywords ≠ []) then
      let escalated : Bool × Bool × String × String :=
        if active_time > 120 then (true, true, "high", "close-tab")
        else if active_time > 30 then (true, false, "medium", "warning")
        else (false, false, "low", "monitor")
      { is_distraction := scored.1, distraction_score := scored.2,
        suggested_action := some escalated.2.2.2,
        detected_indicators := medium_keywords,
        content_type := "medium_distraction",
        severity := escalated.2.2.1,
        active_time_seconds := active_time,
        should_alert := scored.1,
        should_block := escalated.1,
        should_warn := !escalated.1 && scored.1,
        should_close := escalated.2.1 }
    else
      { is_distraction := false, distraction_score := 5,
        suggested_action := none, detected_indicators := [],
        content_type := "neutral", severity := "none",
        active_time_seconds := active_time,
        should_alert := false, should_block := false, should_warn := false,
        should_close := false }

/-! ## Focus monitor (`focus_score_monitor.py`)

The OpenCV detectors are deterministic functions of the frame; their
outputs enter the model as a `FrameSig` (one per frame).  The monitor's
mutable state — the lazily initialised baseline face size, the session
focus history and the frame counter — is threaded explicitly. -/

structure Rect where
  x : ℕ
  y : ℕ
  w : ℕ
  h : ℕ
  deriving Repr, DecidableEq

def rectArea (r : Rect) : ℕ := r.w * r.h

/-- Python `max(faces, key=lambda x: x[2]*x[3])`: first maximum by area. -/
def chooseLargest (r : Rect) (rs : List Rect) : Rect :=
  rs.foldl (fun best c => if rectArea c > rectArea best then c else best) r

/-- Deterministic per-frame detector outputs (the external OpenCV calls). -/
structure FrameSig where
  width : ℕ
  height : ℕ
  dnnFaces : List Rect
  haarFaces : List Rect
  altFaces1 : List Rect
  altFaces2 : List Rect
  profiles : List Rect
  bodies : List Rect
  eyesOf : Rect → List Rect

structure MonitorCfg where
  useDnn : Bool
  dnnOnly : Bool
  deriving Repr, DecidableEq

/-- The frontal-face detection cascade: DNN candidates (filtered to boxes
wider and taller than 40), then the Haar cascade and its two alternates
unless `dnn_only` is set. -/
def detectFaces (cfg : MonitorCfg) (s : FrameSig) : List Rect :=
  let dnn := if cfg.useDnn then
      s.dnnFaces.filter (fun r => 40 < r.w && 40 < r.h) else []
  if dnn ≠ [] then dnn
  else if cfg.dnnOnly then []
  else if s.haarFaces ≠ [] then s.haarFaces
  else if s.altFaces1 ≠ [] then s.altFaces1
  else s.altFaces2

/-- `analyze_eye_positions` output; `eye_symmetry` is `none` in the
exception fallback (division by a zero face area), where the returned
dict has no symmetry key. -/
structure EyeAnalysis where
  blink_detected : Bool
  eye_openness : ℚ
  eye_symmetry : Option ℚ
  deriving Repr, DecidableEq

def analyze_eye_positions (eyes : List Rect) (fw fh : ℕ) : EyeAnalysis :=
  if eyes.length < 2 then
    { blink_detected := false, eye_openness := 0, eye_symmetry := some 0 }
  else if fw * fh = 0 then
    -- ZeroDivisionError caught by the except: partial dict, no symmetry key
    { blink_detected := false, eye_openness := 0, eye_symmetry := none }
  else
    let sorted := eyes.mergeSort (fun a b => a.x ≤ b.x)
    let leftEye := sorted.headD ⟨0, 0, 0, 0⟩
    let rightEye := (sorted.drop 1).headD ⟨0, 0, 0, 0⟩
    let la := rectArea leftEye
    let ra := rectArea rightEye
    let avg : ℚ := ((la : ℚ) + ra) / 2
    let rel : ℚ := avg / ((fw : ℚ) * fh) * 100
    let maxA := max la ra
    let sym : ℚ :=
      if maxA > 0 then 1 - |(la : ℚ) - ra| / maxA else 0
    { blink_detected := rel < 1,
      eye_openness := pyRound 2 (min 1 (rel / 3)),
      eye_symmetry := some (pyRound 2 sym) }

structure FaceObs where
  face_detected : Bool
  face_position : String
  looking_at_screen : Bool
  eye_gaze : String
  face_confidence : ℚ
  face_rect : Option Rect
  face_center : Option (ℕ × ℕ)
  face_size : ℕ
  eyes_detected : ℕ
  eye_analysis : Option EyeAnalysis
  deriving Repr, DecidableEq

/-- No-face / detector-exception observation (`eye_gaze` is `"unknown"`
when nothing was found, `"error"` when the except-branch fired). -/
def noFaceObs (gaze : String) : FaceObs :=
  { face_detected := false, face_position := "", looking_at_screen := false,
    eye_gaze := gaze, face_confidence := 0, face_rect := none,
    face_center := none, face_size := 0, eyes_detected := 0,
    eye_analysis := none }

/-- Profile-only observation: fixed 0.6 confidence, gaze `"side"`. -/
def profileObs (r : Rect) : FaceObs :=
  { face_detected := true, face_position := "profile",
    looking_at_screen := false, eye_gaze := "side", face_confidence := 6/10,
    face_rect := some r, face_center := some (r.x + r.w / 2, r.y + r.h / 2),
    face_size := 0, eyes_detected := 0, eye_analysis := none }

/-- Frontal-face analysis; also returns the (lazily initialised) baseline
face size. -/
def frontalObs (s : FrameSig) (b : Option ℕ) (face : Rect) :
    FaceObs × Option ℕ :=
  let cx := face.x + face.w / 2
  let cy := face.y + face.h / 2
  let eyes := s.eyesOf face
  let fox : ℤ := (cx : ℤ) - ((s.width / 2 : ℕ) : ℤ)
  let foy : ℤ := (cy : ℤ) - ((s.height / 2 : ℕ) : ℤ)
  let face_size := rectArea face
  let b' := b.getD face_size
  let ratio : ℚ := if b' > 0 then (face_size : ℚ) / b' else 1
  let cX : Bool := ((|fox| : ℤ) : ℚ) < (s.width : ℚ) * (1/5)
  let cY : Bool := ((|foy| : ℤ) : ℚ) < (s.height : ℚ) * (3/20)
  let gD : Bool := decide ((7/10 : ℚ) < ratio) && decide (ratio < (3/2 : ℚ))
  let hE : Bool := decide (1 ≤ eyes.length)
  let gaze : String :=
    if |fox| > |foy| then
      (if fox > 30 then "right" else if fox < -30 then "left" else "center")
    else
      (if foy > 20 then "down" else if foy < -20 then "up" else "center")
  let looking := cX && cY && gD && hE
  let conf : ℚ := ((if cX then 1 else 0) + (if cY then 1 else 0) +
    (if gD then 1 else 0) + (if hE then 1 else 0) : ℚ) / 4
  ({ face_detected := true, face_position := "frontal",
     looking_at_screen := looking, eye_gaze := gaze,
     face_confidence := pyRound 2 conf, face_rect := some face,
     face_center := some (cx, cy), face_size := face_size,
     eyes_detected := eyes.length,
     eye_analysis := some (analyze_eye_positions eyes face.w face.h) },
   some b')

/-- `detect_face_and_eyes`: detector cascade, then profile fallback; with
`dnn_only` set and no DNN face, `max()` over the empty candidate list
raises and the except-branch returns the error observation. -/
def detect_face_and_eyes (cfg : MonitorCfg) (b : Option ℕ) (s : FrameSig) :
    FaceObs × Option ℕ :=
  match detectFaces cfg s with
  | [] =>
    if cfg.dnnOnly then (noFaceObs "error", b)
    else
      match s.profiles with
      | [] => (noFaceObs "unknown", b)
      | p :: _ => (profileObs p, b)
  | f :: fs => frontalObs s b (chooseLargest f fs)

structure PostureObs where
  posture_score : ℚ
  posture_level : String
  deriving Repr, DecidableEq

def postureLevel (sc : ℚ) : String :=
  if sc ≥ 80 then "excellent"
  else if sc ≥ 65 then "good"
  else if sc ≥ 50 then "fair"
  else "poor"

/-- Absolute difference of naturals (python `abs(a - b)` on ints). -/
def natDist (a b : ℕ) : ℕ := max a b - min a b

/-- `analyze_posture`; the division-by-zero exception paths (frame width
zero on the body path, frame height zero on the face-only path) return
the fixed except-branch result `(30.0, "unknown")`. -/
def analyze_posture (s : FrameSig) (obs : FaceObs) : PostureObs :=
  match s.bodies, obs.face_detected with
  | b0 :: bs, true =>
    if s.width = 0 then { posture_score := 30, posture_level := "unknown" }
    else
      let body := chooseLargest b0 bs
      let fc := obs.face_center.getD (s.width / 2, s.height / 2)
      let bcx := body.x + body.w / 2
      let aligned : Bool :=
        ((natDist fc.1 bcx : ℕ) : ℚ) < (body.w : ℚ) * (1/5)
      let hbr : ℚ :=
        if body.h > 0 then ((fc.2 : ℚ) - (body.y : ℚ)) / body.h else 1/2
      let wellPos : Bool := decide ((1/10 : ℚ) < hbr) && decide (hbr < (2/5 : ℚ))
      let bwr : ℚ := (body.w : ℚ) / ((s.width : ℚ) * (1/4))
      let facing : Bool := decide ((4/5 : ℚ) < bwr) && decide (bwr < (3/2 : ℚ))
      let aspect : ℚ := if body.w > 0 then (body.h : ℚ) / body.w else 1
      let upright : Bool := decide (aspect > (6/5 : ℚ))
      let score : ℚ := 25 + ((if aligned then 1 else 0) + (if wellPos then 1 else 0)
        + (if facing then 1 else 0) + (if upright then 1 else 0) : ℚ) / 4 * 75
      { posture_score := pyRound 1 score, posture_level := postureLevel score }
  | _, _ =>
    if obs.face_detected then
      if s.height = 0 then { posture_score := 30, posture_level := "unknown" }
      else
        let fr := obs.face_rect.getD ⟨0, 0, 100, 100⟩
        let fcx := fr.x + fr.w / 2
        let fyy := fr.y + fr.h / 2
        let centered : Bool :=
          ((natDist fcx (s.width / 2) : ℕ) : ℚ) < (s.width : ℚ) * (3/20)
        let yr : ℚ := (fyy : ℚ) / s.height
        let goodH : Bool := decide ((1/5 : ℚ) < yr) && decide (yr < (3/5 : ℚ))
        let score : ℚ := if centered && goodH then 40 else 25
        { posture_score := pyRound 1 score, posture_level := postureLevel score }
    else
      { posture_score := pyRound 1 50, posture_level := postureLevel 50 }

structure PhoneObs where
  phone_detected : Bool
  phone_confidence : ℚ
  risk_level : String
  deriving Repr, DecidableEq

def riskLevel (c : ℚ) : String :=
  if c > 7/10 then "high" else if c > 2/5 then "medium" else "low"

/-- `detect_phone_usage`; the additive cues are evaluated only when a face
was observed, and the frame-height division-by-zero exception path
returns the fixed except-branch result. -/
def detect_phone_usage (b : Option ℕ) (s : FrameSig) (obs : FaceObs) :
    PhoneObs :=
  if obs.face_detected then
    if s.height = 0 then
      { phone_detected := false, phone_confidence := 0, risk_level := "low" }
    else
      let fc := obs.face_center.getD (s.width / 2, s.height / 2)
      let fr := obs.face_rect.getD ⟨0, 0, 100, 100⟩
      let c1 : ℚ := if (fc.2 : ℚ) / s.height > 3/5 then 3/10 else 0
      let face_size := fr.w * fr.h
      let c2 : ℚ := match b with
        | some bb =>
          if bb ≠ 0 ∧ (face_size : ℚ) > (bb : ℚ) * (13/10) then 1/5 else 0
        | none => 0
      let sym : ℚ := (obs.eye_analysis.bind (·.eye_symmetry)).getD 1
      let c3 : ℚ := if sym < 7/10 then 1/5 else 0
      let c4 : ℚ := if obs.face_position = "profile" then 2/5 else 0
      let c5 : ℚ := if obs.eye_gaze = "down" ∨ obs.eye_gaze = "side" then
        1/10 else 0
      let conf : ℚ := min (c1 + c2 + c3 + c4 + c5) 1
      { phone_detected := conf > 2/5, phone_confidence := pyRound 2 conf,
        risk_level := riskLevel conf }
  else
    { phone_detected := decide ((1/5 : ℚ) > 2/5),
      phone_confidence := pyRound 2 (1/5), risk_level := riskLevel (1/5) }

/-- One session-history entry (`focus_history` element). -/
structure FocusRecord where
  timestamp : ℚ
  score : ℚ
  gaze : ℚ
  posture : ℚ
  phone_penalty : ℚ
  deriving Repr, DecidableEq

structure FocusMetrics where
  overall_focus_score : ℚ
  focus_level : String
  gaze_score : ℚ
  posture_score : ℚ
  phone_penalty : ℚ
  session_average : ℚ
  deriving Repr, DecidableEq

/-- Gaze component: 0 without a face, a flat 10 for a face that is not
looking at the screen, else `45 × confidence`. -/
def gazeComponent (obs : FaceObs) : ℚ :=
  if obs.face_detected then
    (if obs.looking_at_screen then 45 * obs.face_confidence else 10)
  else 0

/-- Posture component: the 0–100 posture score scaled to 0–35. -/
def postureComponent (p : PostureObs) : ℚ := p.posture_score / 100 * 35

/-- Phone penalty: the 0–1 confidence scaled to 0–20. -/
def phonePenaltyOf (ph : PhoneObs) : ℚ := ph.phone_confidence * 20

/-- `total = clamp(gaze + posture - phonePenalty, 0, 100)`. -/
def focusTotal (obs : FaceObs) (p : PostureObs) (ph : PhoneObs) : ℚ :=
  max 0 (min 100 (gazeComponent obs + postureComponent p - phonePenaltyOf ph))

def focusLevel (t : ℚ) : String :=
  if t ≥ 85 then "excellent"
  else if t ≥ 70 then "good"
  else if t ≥ 50 then "fair"
  else if t ≥ 30 then "poor"
  else "critical"

/-- The record appended to the session history by `calculate_focus_score`. -/
def newFocusRecord (now : ℚ) (obs : FaceObs) (p : PostureObs) (ph : PhoneObs) :
    FocusRecord :=
  { timestamp := now, score := focusTotal obs p ph,
    gaze := gazeComponent obs, posture := postureComponent p,
    phone_penalty := phonePenaltyOf ph }

/-- `calculate_focus_score`: fuse the three component observations, append
the record to the history, prune entries at or beyond the 300-second
cutoff, and report the rounded session mean. -/
def calculate_focus_score (now : ℚ) (hist : List FocusRecord) (obs : FaceObs)
    (p : PostureObs) (ph : PhoneObs) : FocusMetrics × List FocusRecord :=
  let total := focusTotal obs p ph
  let hist2 := (hist ++ [newFocusRecord now obs p ph]).filter
    (fun r => r.timestamp > now - 300)
  let avg : ℚ := if hist2 = [] then total
    else pyRound 1 ((hist2.map FocusRecord.score).sum / hist2.length)
  ({ overall_focus_score := pyRound 1 total, focus_level := focusLevel total,
     gaze_score := pyRound 1 (gazeComponent obs),
     posture_score := pyRound 1 (postureComponent p),
     phone_penalty := pyRound 1 (phonePenaltyOf ph),
     session_average := avg }, hist2)

/-- The monitor's mutable state. -/
structure MonState where
  baseline_face_size : Option ℕ
  focus_history : List FocusRecord
  frame_count : ℕ
  deriving Repr, DecidableEq

def initMonState : MonState :=
  { baseline_face_size := none, focus_history := [], frame_count := 0 }

/-- The per-call result of `analyze_frame` (decision-relevant fields). -/
structure FrameResult where
  timestamp : ℚ
  frame_count : ℕ
  focus_score : ℚ
  focus_level : String
  gaze_analysis : FaceObs
  posture_analysis : PostureObs
  phone_analysis : PhoneObs
  session_average_focus : ℚ
  eye_gaze : String
  looking_at_screen : Bool
  face_detected : Bool
  posture_score : ℚ
  phone_detected : Bool
  deriving Repr, DecidableEq

/-- `analyze_frame`: face/eyes, posture, phone, then score fusion; the
current wall-clock time is an explicit input. -/
def analyze_frame (cfg : MonitorCfg) (now : ℚ) (st : MonState) (s : FrameSig) :
    FrameResult × MonState :=
  let det := detect_face_and_eyes cfg st.baseline_face_size s
  let obs := det.1
  let post := analyze_posture s obs
  let ph := detect_phone_usage det.2 s obs
  let fm := calculate_focus_score now st.focus_history obs post ph
  ({ timestamp := now, frame_count := st.frame_count + 1,
     focus_score := fm.1.overall_focus_score, focus_level := fm.1.focus_level,
     gaze_analysis := obs, posture_analysis := post, phone_analysis := ph,
     session_average_focus := fm.1.session_average,
     eye_gaze := obs.eye_gaze, looking_at_screen := obs.looking_at_screen,
     face_detected := obs.face_detected, posture_score := post.posture_score,
     phone_detected := ph.phone_detected },
   { baseline_face_size := det.2, focus_history := fm.2,
     frame_count := st.frame_count + 1 })

/-- Outcome of the external base64 + `cv2.imdecode` step for the focus
entry point: the base64 decode may raise (caught by the outer `try`),
`imdecode` may return `None`, or a frame is produced. -/
inductive FrameDecode where
  | b64Error
  | imdecodeNone
  | ok (s : FrameSig)

/-- The API-level focus result; `eye_gaze` is absent (`none`) in the
`imdecode`-returned-`None` error dict, which carries no such key. -/
structure FocusApiResult where
  focus_score : ℚ
  focus_level : String
  eye_gaze : Option String
  looking_at_screen : Bool
  face_detected : Bool
  err : Option String
  deriving Repr, DecidableEq

/-- `analyze_focus_from_b64`: every path returns a result dict — decode
failures are caught (outer `try`) or short-circuited (`frame is None`)
into error results with safe defaults; no exception escapes. -/
def analyze_focus_from_b64 (cfg : MonitorCfg) (now : ℚ) (st : MonState)
    (d : FrameDecode) : FocusApiResult × MonState :=
  match d with
  | .b64Error =>
    ({ focus_score := 0, focus_level := "error", eye_gaze := some "unknown",
       looking_at_screen := false, face_detected := false,
       err := some "exception" }, st)
  | .imdecodeNone =>
    ({ focus_score := 0, focus_level := "error", eye_gaze := none,
       looking_at_screen := false, face_detected := false,
       err := some "Failed to decode frame" }, st)
  | .ok s =>
    let r := analyze_frame cfg now st s
    ({ focus_score := r.1.focus_score, focus_level := r.1.focus_level,
       eye_gaze := some r.1.eye_gaze,
       looking_at_screen := r.1.looking_at_screen,
       face_detected := r.1.face_detected, err := none }, r.2)

/-! ## General lemmas -/

theorem isSubstr_correct (n h : Text) : isSubstr n h = true ↔ n <:+: h := by
  induction h with
  | nil =>
    constructor
    · intro hs
      have : n = [] := by
        simpa [isSubstr, List.isEmpty_iff] using hs
      simp only [this]
      exact List.nil_infix
    · intro hi
      have : n = [] := List.eq_nil_of_infix_nil hi
      simp [isSubstr, List.isEmpty_iff, this]
  | cons c cs ih =>
    simp only [isSubstr, Bool.or_eq_true, List.isPrefixOf_iff_prefix, ih,
      List.infix_cons_iff]

/-- Python `keyword in text` (substring containment). -/

theorem roundHalfEven_ge_floor (q : ℚ) : ⌊q⌋ ≤ roundHalfEven q := by
  unfold roundHalfEven
  split
  · exact le_refl _
  · split
    · omega
    · split
      · exact le_refl _
      · omega

theorem roundHalfEven_le_add_half (q : ℚ) : (roundHalfEven q : ℚ) ≤ q + 1/2 := by
  unfold roundHalfEven
  have hfl : (⌊q⌋ : ℚ) ≤ q := Int.floor_le q
  split
  · linarith
  · rename_i h1
    split
    · rename_i h2
      push_cast
      linarith
    · split
      · linarith
      · rename_i h2 h3
        have : q - (⌊q⌋ : ℚ) = 1/2 := le_antisymm (not_lt.mp h2) (not_lt.mp h1)
        push_cast
        linarith

theorem pyRound_nonneg (n : ℕ) (q : ℚ) (hq : 0 ≤ q) : 0 ≤ pyRound n q := by
  unfold pyRound
  have hp : (0:ℚ) < 10 ^ n := by positivity
  apply div_nonneg _ (le_of_lt hp)
  have h0 : (0:ℤ) ≤ ⌊q * 10 ^ n⌋ := by
    apply Int.le_floor.mpr
    push_cast
    positivity
  have := roundHalfEven_ge_floor (q * 10 ^ n)
  exact_mod_cast le_trans h0 this

theorem pyRound_le (n : ℕ) (q B : ℚ) (hB : ∃ z : ℤ, (z:ℚ) = B) (hq : q ≤ B) :
    pyRound n q ≤ B := by
  obtain ⟨z, hz⟩ := hB
  unfold pyRound
  have hp : (0:ℚ) < 10 ^ n := by positivity
  rw [div_le_iff₀ hp]
  have h1 : (roundHalfEven (q * 10 ^ n) : ℚ) ≤ q * 10 ^ n + 1/2 :=
    roundHalfEven_le_add_half _
  have h2 : q * 10 ^ n ≤ B * 10 ^ n := by
    apply mul_le_mul_of_nonneg_right hq (le_of_lt hp)
  -- the bound `B * 10^n` is an integer, so an integer `≤ B * 10^n + 1/2`
  -- is in fact `≤ B * 10^n`
  have hint : ∃ w : ℤ, (w:ℚ) = B * 10 ^ n := ⟨z * 10 ^ n, by push_cast [← hz]; ring⟩
  obtain ⟨w, hw⟩ := hint
  have h3 : (roundHalfEven (q * 10 ^ n) : ℚ) ≤ (w:ℚ) + 1/2 := by
    rw [hw]; linarith
  have h4 : roundHalfEven (q * 10 ^ n) ≤ w := by
    by_contra hcon
    push_neg at hcon
    have : (w:ℚ) + 1 ≤ (roundHalfEven (q * 10 ^ n) : ℚ) := by exact_mod_cast hcon
    linarith
  calc (roundHalfEven (q * 10 ^ n) : ℚ) ≤ (w:ℚ) := by exact_mod_cast h4
    _ = B * 10 ^ n := hw

theorem focusTotal_nonneg (obs : FaceObs) (p : PostureObs) (ph : PhoneObs) :
    0 ≤ focusTotal obs p ph := le_max_left 0 _

theorem focusTotal_le_100 (obs : FaceObs) (p : PostureObs) (ph : PhoneObs) :
    focusTotal obs p ph ≤ 100 :=
  max_le (by norm_num) (min_le_left _ _)

theorem analyze_frame_focus_score (cfg : MonitorCfg) (now : ℚ) (st : MonState)
    (s : FrameSig) :
    (analyze_frame cfg now st s).1.focus_score =
      pyRound 1 (focusTotal (detect_face_and_eyes cfg st.baseline_face_size s).1
        (analyze_posture s (detect_face_and_eyes cfg st.baseline_face_size s).1)
        (detect_phone_usage (detect_face_and_eyes cfg st.baseline_face_size s).2 s
          (detect_face_and_eyes cfg st.baseline_face_size s).1)) := rfl

/-! ## Claims -/

/-- C1: whenever the educational rule qualifies (weighted educational
keyword/pattern score ≥ 2), both the screen-analysis classifier and the
window-analysis classifier return the educational verdict —
`is_distraction = false` and `distraction_score = 0` — regardless of the
high/medium rules (the educational branch is evaluated first and
short-circuits). -/
theorem C1_educational_priority :
    (∀ (t : Text) (mdl : Option DistractionModel),
      is_educational t = true →
        (analyze_screen_text t mdl).is_distraction = false ∧
        (analyze_screen_text t mdl).distraction_score = 0 ∧
        (analyze_screen_text t mdl).content_type = "educational") ∧
    (∀ w : WindowInfo,
      is_educational (windowAllText w) = true →
        (analyze_distraction_from_window (some w)).is_distraction = false ∧
        (analyze_distraction_from_window (some w)).distraction_score = 0 ∧
        (analyze_distraction_from_window (some w)).content_type =
          "educational") := by
  constructor
  · intro t mdl h
    simp [analyze_screen_text, h]
  · intro w h
    simp [analyze_distraction_from_window, h]

set_option maxRecDepth 16384

/-- C1 witness: a concrete text on which the educational rule and also
both distraction rules qualify still gets the educational verdict on both
paths. -/
theorem C1_educational_priority_witness :
    is_educational "tutorial funny viral facebook learn".toList = true ∧
    is_high_distraction "tutorial funny viral facebook learn".toList = true ∧
    is_medium_distraction "tutorial funny viral facebook learn".toList = true ∧
    (analyze_screen_text "tutorial funny viral facebook learn".toList
      none).is_distraction = false ∧
    (analyze_distraction_from_window
      (some ⟨some "tutorial funny viral facebook learn", none, none,
        some 50⟩)).is_distraction = false :=
  ⟨by decide, by decide, by decide,
    (C1_educational_priority.1 _ none (by decide)).1,
    (C1_educational_priority.2 _ (by decide)).1⟩

/-- C2: the focus score produced by the frame pipeline is always within
[0, 100] (`total = clamp(gaze + posture − phonePenalty, 0, 100)`, then
rounded to one decimal), and the distraction scores of both classifiers
are natural numbers bounded by 100 on every branch. -/
theorem C2_score_bounds :
    (∀ (cfg : MonitorCfg) (now : ℚ) (st : MonState) (s : FrameSig),
        0 ≤ (analyze_frame cfg now st s).1.focus_score ∧
        (analyze_frame cfg now st s).1.focus_score ≤ 100) ∧
    (∀ (t : Text) (mdl : Option DistractionModel),
        (analyze_screen_text t mdl).distraction_score ≤ 100) ∧
    (∀ w : Option WindowInfo,
        (analyze_distraction_from_window w).distraction_score ≤ 100) := by
  refine ⟨fun cfg now st s => ?_, fun t mdl => ?_, fun w => ?_⟩
  · rw [analyze_frame_focus_score]
    exact ⟨pyRound_nonneg 1 _ (focusTotal_nonneg _ _ _),
      pyRound_le 1 _ 100 ⟨100, by norm_num⟩ (focusTotal_le_100 _ _ _)⟩
  · unfold analyze_screen_text
    split_ifs <;> dsimp only <;>
      first
        | (split_ifs <;> omega)
        | omega
  · cases w <;>
      · unfold analyze_distraction_from_window
        dsimp only
        split_ifs <;> dsimp only <;>
          first
            | omega
            | (split_ifs <;> omega)

/-- C6 counterexample: a high-distraction window observed for only 5
seconds still has `should_alert = true`, so `should_alert` is not
`is_distraction AND activeTimeSeconds > 10` as claimed. -/
theorem C6_counterexample :
    ¬((analyze_distraction_from_window
        (some ⟨some "funny viral video", none, none, some 5⟩)).should_alert =
      ((analyze_distraction_from_window
          (some ⟨some "funny viral video", none, none, some 5⟩)).is_distraction
        && decide ((analyze_distraction_from_window
          (some ⟨some "funny viral video", none, none,
            some 5⟩)).active_time_seconds > 10))) := by
  decide

/-- C6 (amended): in the window-analysis path `should_alert` always equals
`is_distraction`; the active time is never consulted for the alert flag. -/
theorem C6_alert_equals_distraction (w : Option WindowInfo) :
    (analyze_distraction_from_window w).should_alert =
      (analyze_distraction_from_window w).is_distraction := by
  cases w <;>
    · unfold analyze_distraction_from_window
      dsimp only
      split_ifs <;> rfl

/-- C8: `analyze_focus_from_b64` converts both decode failure modes into
complete result dicts with safe defaults, but `analyze_screen_from_b64`
has no `try` around its base64/image decode, so a malformed input raises
to the caller instead of producing a result. -/
theorem C8_decode_failure_behaviour :
    analyze_screen_from_b64 none none =
      Except.error "b64decode/Image.open raised" ∧
    (analyze_focus_from_b64 ⟨false, false⟩ 0 initMonState
        FrameDecode.b64Error).1 =
      { focus_score := 0, focus_level := "error", eye_gaze := some "unknown",
        looking_at_screen := false, face_detected := false,
        err := some "exception" } ∧
    (analyze_focus_from_b64 ⟨false, false⟩ 0 initMonState
        FrameDecode.imdecodeNone).1 =
      { focus_score := 0, focus_level := "error", eye_gaze := none,
        looking_at_screen := false, face_detected := false,
        err := some "Failed to decode frame" } :=
  ⟨rfl, rfl, rfl⟩

/-- C10: a non-dict window argument, or a window dict whose fields are
missing or match no rule, yields the neutral verdict with every action
flag false and `active_time_seconds` defaulting to 0. -/
theorem C10_missing_fields_defaults :
    (analyze_distraction_from_window none =
      { is_distraction := false, distraction_score := 5,
        suggested_action := none, detected_indicators := [],
        content_type := "neutral", severity := "none",
        active_time_seconds := 0, should_alert := false,
        should_block := false, should_warn := false,
        should_close := false }) ∧
    (∀ wi : WindowInfo,
      is_educational (windowAllText wi) = false →
      is_high_distraction (windowAllText wi) = false →
      mediumDetected (windowAllText wi) = [] →
        analyze_distraction_from_window (some wi) =
          { is_distraction := false, distraction_score := 5,
            suggested_action := none, detected_indicators := [],
            content_type := "neutral", severity := "none",
            active_time_seconds := wi.active_time.getD 0,
            should_alert := false, should_block := false,
            should_warn := false, should_close := false }) := by
  constructor
  · decide
  · intro wi h1 h2 h3
    simp [analyze_distraction_from_window, h1, h2, h3]

/-- C10 witness: a window dict with every key missing gets the neutral
verdict with `active_time_seconds = 0`. -/
theorem C10_missing_fields_defaults_witness :
    is_educational (windowAllText ⟨none, none, none, none⟩) = false ∧
    is_high_distraction (windowAllText ⟨none, none, none, none⟩) = false ∧
    mediumDetected (windowAllText ⟨none, none, none, none⟩) = [] ∧
    analyze_distraction_from_window (some ⟨none, none, none, none⟩) =
      { is_distraction := false, distraction_score := 5,
        suggested_action := none, detected_indicators := [],
        content_type := "neutral", severity := "none",
        active_time_seconds := 0, should_alert := false,
        should_block := false, should_warn := false,
        should_close := false } :=
  ⟨by decide, by decide, by decide,
    C10_missing_fields_defaults.2 ⟨none, none, none, none⟩
      (by decide) (by decide) (by decide)⟩

/-- The fixed known-distracting domain list.  Modelled from the spec: the
spec describes a website-identity fast path over this list in the
screen-analysis flow; no such list or override exists in
`analyze_screen_from_b64`. -/
def knownDistractingDomains : List String :=
  ["youtube.com", "facebook.com", "instagram.com", "twitter.com",
   "netflix.com", "reddit.com", "tiktok.com"]

/-- C4 counterexample: OCR text whose extracted domain is exactly
`youtube.com` (a known-distracting domain) and on which the educational
rule does not win is still classified `is_distraction = false` — the
claimed domain fast path does not exist in the screen-analysis flow. -/
theorem C4_counterexample :
    extract_website "youtube.com".toList = "youtube.com" ∧
    extract_website "youtube.com".toList ∈ knownDistractingDomains ∧
    is_educational "youtube.com".toList = false ∧
    (analyze_screen_text "youtube.com".toList none).is_distraction = false := by
  refine ⟨by decide, by decide, by decide, by decide⟩

/-- C4 (amended): the screen-analysis flow consults no domain list — even
when the extracted domain exactly matches a known-distracting domain, the
verdict follows the educational/high/medium/model cascade alone; with no
tier qualifying and no model configured the result is the productive
default `is_distraction = false`, `distraction_score = 10`. -/
theorem C4_no_domain_fast_path (t : Text)
    (hdom : extract_website t ∈ knownDistractingDomains)
    (hedu : is_educational t = false)
    (hhigh : is_high_distraction t = false)
    (hmed : is_medium_distraction t = false) :
    (analyze_screen_text t none).is_distraction = false ∧
    (analyze_screen_text t none).distraction_score = 10 := by
  simp [analyze_screen_text, hedu, hhigh, hmed]

/-- C4 witness: the amended statement at the concrete text
`"youtube.com"`. -/
theorem C4_no_domain_fast_path_witness :
    extract_website "youtube.com".toList ∈ knownDistractingDomains ∧
    (analyze_screen_text "youtube.com".toList none).is_distraction = false ∧
    (analyze_screen_text "youtube.com".toList none).distraction_score = 10 :=
  ⟨by decide,
    (C4_no_domain_fast_path "youtube.com".toList (by decide) (by decide)
      (by decide) (by decide)).1,
    (C4_no_domain_fast_path "youtube.com".toList (by decide) (by decide)
      (by decide) (by decide)).2⟩

/-- A nonempty needle containing no character matched by `p` survives
`dropWhile p` of any haystack containing it. -/
theorem infix_dropWhile_of_no_match (p : Char → Bool) (n : Text) (hne : n ≠ [])
    (hall : ∀ c ∈ n, p c = false) :
    ∀ l : Text, n <:+: l → n <:+: l.dropWhile p := by
  intro l
  induction l with
  | nil => intro h; simpa using h
  | cons c cs ih =>
    intro h
    by_cases hc : p c = true
    · rw [List.dropWhile_cons_of_pos hc]
      apply ih
      rcases List.infix_cons_iff.mp h with hpre | hinf
      · exfalso
        cases n with
        | nil => exact hne rfl
        | cons a as =>
          obtain ⟨t, ht⟩ := hpre
          have hac : a = c := by
            have := congrArg List.head? ht
            simpa using this
          have := hall a (List.mem_cons_self a as)
          rw [hac, hc] at this
          exact Bool.true_eq_false.mp this
      · exact hinf
    · rw [List.dropWhile_cons_of_neg hc]
      exact h

/-- A nonempty needle with no python-whitespace character survives
`str.strip()` of any haystack containing it. -/
theorem infix_stripT (n : Text) (hne : n ≠ [])
    (hall : ∀ c ∈ n, pyWhite c = false)
    (l : Text) (h : n <:+: l) : n <:+: stripT l := by
  unfold stripT
  have h1 := infix_dropWhile_of_no_match pyWhite n hne hall l h
  have h2 : n.reverse <:+: (l.dropWhile pyWhite).reverse :=
    List.reverse_infix.mpr h1
  have hne' : n.reverse ≠ [] := by simpa using hne
  have hall' : ∀ c ∈ n.reverse, pyWhite c = false := by
    intro c hc
    exact hall c (List.mem_reverse.mp hc)
  have h3 := infix_dropWhile_of_no_match pyWhite n.reverse hne' hall' _ h2
  have h4 : n.reverse <:+:
      (((l.dropWhile pyWhite).reverse.dropWhile pyWhite).reverse).reverse := by
    simpa [List.reverse_reverse] using h3
  exact List.reverse_infix.mp h4

/-- A nonempty whitespace-free needle inside the url is inside the
combined `all_text` of a window observation. -/
theorem infix_windowAllText (n : Text) (hne : n ≠ [])
    (hall : ∀ c ∈ n, pyWhite c = false) (w : WindowInfo)
    (h : n <:+: windowUrl w) : n <:+: windowAllText w := by
  apply infix_stripT n hne hall
  exact h.trans
    (List.suffix_append (windowTitle w ++ [' ']) (windowUrl w)).isInfix

/-- C5: a window observation whose url contains `facebook.com`, with no
educational or high-distraction qualification and 150 seconds of active
time, is blocked and closed via the medium-tier >120-second branch. -/
theorem C5_facebook_150 (w : WindowInfo)
    (hurl : "facebook.com".toList <:+: windowUrl w)
    (hedu : is_educational (windowAllText w) = false)
    (hhigh : is_high_distraction (windowAllText w) = false)
    (htime : w.active_time = some 150) :
    (analyze_distraction_from_window (some w)).should_block = true ∧
    (analyze_distraction_from_window (some w)).should_close = true ∧
    (analyze_distraction_from_window (some w)).severity = "high" ∧
    (analyze_distraction_from_window (some w)).suggested_action =
      some "close-tab" := by
  have hfb : "facebook".toList <:+: windowUrl w :=
    List.IsInfix.trans (by decide) hurl
  have hat : "facebook".toList <:+: windowAllText w :=
    infix_windowAllText _ (by decide) (by decide) w hfb
  have hlow : "facebook".toList <:+: lowerText (windowAllText w) := by
    have := List.IsInfix.map Char.toLower hat
    have hfix : "facebook".toList.map Char.toLower = "facebook".toList := by
      decide
    rw [hfix] at this
    exact this
  have hat_ne : windowAllText w ≠ [] := by
    intro hnil
    rw [hnil] at hat
    exact absurd (List.eq_nil_of_infix_nil hat) (by decide)
  have hmem : "facebook" ∈ mediumDetected (windowAllText w) := by
    unfold mediumDetected
    rw [if_neg hat_ne]
    apply List.mem_filter.mpr
    refine ⟨by decide, ?_⟩
    unfold containsKw
    exact (isSubstr_correct _ _).mpr hlow
  have hmne : mediumDetected (windowAllText w) ≠ [] :=
    List.ne_nil_of_mem hmem
  unfold analyze_distraction_from_window
  dsimp only
  rw [htime]
  simp only [hedu, hhigh, Bool.false_eq_true, if_false, ne_eq, hmne,
    not_false_eq_true, Option.getD_some]
  norm_num

/-- C3 counterexample: the text `"funny viral tutorial"` contains both
`funny` and `viral`, yet the educational rule (score 2 from `tutorial`)
wins first, so both classifiers return the educational verdict instead of
the claimed high-distraction one. -/
theorem C3_counterexample :
    ("funny".toList <:+: "funny viral tutorial".toList) ∧
    ("viral".toList <:+: "funny viral tutorial".toList) ∧
    (analyze_screen_text "funny viral tutorial".toList none).is_distraction =
      false ∧
    (analyze_screen_text "funny viral tutorial".toList none).content_type =
      "educational" ∧
    (analyze_distraction_from_window
      (some ⟨some "funny viral tutorial", none, none,
        some 60⟩)).is_distraction = false := by
  refine ⟨by decide, by decide, by decide, by decide, by decide⟩

/-- C3 (amended): on any text containing both `funny` and `viral` on which
the educational rule does not qualify, the high-distraction rule scores at
least 10 (`+5` each, threshold 3) and wins: the screen path returns
`is_distraction = true` with score `min(95, score*10)`, and the window
path additionally returns severity `critical` and suggested action
`force-close` with score `min(95, 80+score)`. -/
theorem C3_funny_viral_high (t : Text)
    (hf : "funny".toList <:+: t) (hv : "viral".toList <:+: t)
    (hedu : is_educational t = false) :
    10 ≤ highDistractionScore t ∧
    is_high_distraction t = true ∧
    (∀ mdl : Option DistractionModel,
      (analyze_screen_text t mdl).is_distraction = true ∧
      (analyze_screen_text t mdl).content_type = "high_distraction" ∧
      (analyze_screen_text t mdl).distraction_score =
        min 95 (highDistractionScore t * 10)) ∧
    (∀ w : WindowInfo, windowAllText w = t →
      (analyze_distraction_from_window (some w)).is_distraction = true ∧
      (analyze_distraction_from_window (some w)).severity = "critical" ∧
      (analyze_distraction_from_window (some w)).suggested_action =
        some "force-close" ∧
      (analyze_distraction_from_window (some w)).distraction_score =
        min 95 (80 + highDistractionScore t)) := by
  have htne : t ≠ [] := by
    intro hnil
    rw [hnil] at hf
    exact absurd (List.eq_nil_of_infix_nil hf) (by decide)
  have hfl : containsKw (lowerText t) "funny" = true := by
    unfold containsKw
    apply (isSubstr_correct _ _).mpr
    have hm := List.IsInfix.map Char.toLower hf
    have hfix : "funny".toList.map Char.toLower = "funny".toList := by decide
    rw [hfix] at hm
    exact hm
  have hvl : containsKw (lowerText t) "viral" = true := by
    unfold containsKw
    apply (isSubstr_correct _ _).mpr
    have hm := List.IsInfix.map Char.toLower hv
    have hfix : "viral".toList.map Char.toLower = "viral".toList := by decide
    rw [hfix] at hm
    exact hm
  have hscore : 10 ≤ highDistractionScore t := by
    have hsub : (["funny", "viral"] : List String).Sublist
        highDistractionKeywords := by decide
    have hmap := hsub.map
      (fun kw => if containsKw (lowerText t) kw then highWeight kw else 0)
    have hsum := List.Sublist.sum_le_sum hmap (fun a _ => Nat.zero_le a)
    have hlhs : ((["funny", "viral"] : List String).map
        (fun kw => if containsKw (lowerText t) kw then highWeight kw
          else 0)).sum = 10 := by
      rw [List.map_cons, List.map_cons, List.map_nil]
      rw [if_pos hfl, if_pos hvl]
      decide
    unfold highDistractionScore
    rw [if_neg htne]
    dsimp only
    omega
  have hhigh : is_high_distraction t = true := by
    unfold is_high_distraction
    exact decide_eq_true (by omega)
  refine ⟨hscore, hhigh, fun mdl => ?_, fun w hw => ?_⟩
  · simp [analyze_screen_text, hedu, hhigh]
  · unfold analyze_distraction_from_window
    dsimp only
    rw [hw]
    simp [hedu, hhigh]

/-- C3 witness: the amended statement at the concrete text
`"funny viral"` (and the matching window observation). -/
theorem C3_funny_viral_high_witness :
    ("funny".toList <:+: "funny viral".toList) ∧
    ("viral".toList <:+: "funny viral".toList) ∧
    is_educational "funny viral".toList = false ∧
    10 ≤ highDistractionScore "funny viral".toList ∧
    (analyze_screen_text "funny viral".toList none).is_distraction = true ∧
    (analyze_distraction_from_window
      (some ⟨some "funny viral", none, none, some 0⟩)).severity =
        "critical" :=
  ⟨by decide, by decide, by decide,
    (C3_funny_viral_high "funny viral".toList (by decide) (by decide)
      (by decide)).1,
    ((C3_funny_viral_high "funny viral".toList (by decide) (by decide)
      (by decide)).2.2.1 none).1,
    ((C3_funny_viral_high "funny viral".toList (by decide) (by decide)
      (by decide)).2.2.2 ⟨some "funny viral", none, none, some 0⟩
      (by decide)).2.1⟩

/-- C5 witness: the concrete observation `url = "facebook.com"`,
`active_time = 150`. -/
theorem C5_facebook_150_witness :
    ("facebook.com".toList <:+:
      windowUrl ⟨none, some "facebook.com", none, some 150⟩) ∧
    is_educational
      (windowAllText ⟨none, some "facebook.com", none, some 150⟩) = false ∧
    is_high_distraction
      (windowAllText ⟨none, some "facebook.com", none, some 150⟩) = false ∧
    (analyze_distraction_from_window
      (some ⟨none, some "facebook.com", none, some 150⟩)).should_block =
        true ∧
    (analyze_distraction_from_window
      (some ⟨none, some "facebook.com", none, some 150⟩)).should_close =
        true :=
  ⟨by decide, by decide, by decide,
    (C5_facebook_150 ⟨none, some "facebook.com", none, some 150⟩
      (by decide) (by decide) (by decide) rfl).1,
    (C5_facebook_150 ⟨none, some "facebook.com", none, some 150⟩
      (by decide) (by decide) (by decide) rfl).2.1⟩

theorem calculate_focus_score_snd (now : ℚ) (hist : List FocusRecord)
    (obs : FaceObs) (p : PostureObs) (ph : PhoneObs) :
    (calculate_focus_score now hist obs p ph).2 =
      (hist ++ [newFocusRecord now obs p ph]).filter
        (fun r => r.timestamp > now - 300) := rfl

theorem calculate_focus_score_session_average (now : ℚ)
    (hist : List FocusRecord) (obs : FaceObs) (p : PostureObs)
    (ph : PhoneObs) :
    (calculate_focus_score now hist obs p ph).1.session_average =
      if (calculate_focus_score now hist obs p ph).2 = [] then
        focusTotal obs p ph
      else pyRound 1
        (((calculate_focus_score now hist obs p ph).2.map
            FocusRecord.score).sum /
          (calculate_focus_score now hist obs p ph).2.length) := rfl

/-- C7 counterexample: one retained record with the (unrounded) stored
score 33.75 has the arithmetic mean 33.75, but the call returns
`session_average = 33.8` (rounded to one decimal) — `session_average`
is not exactly the arithmetic mean of the retained scores. -/
theorem C7_counterexample :
    (calculate_focus_score 0 []
      ⟨true, "frontal", true, "center", 3/4, none, none, 0, 0, none⟩
      ⟨0, "poor"⟩ ⟨false, 0, "low"⟩).1.session_average ≠
    (((calculate_focus_score 0 []
      ⟨true, "frontal", true, "center", 3/4, none, none, 0, 0, none⟩
      ⟨0, "poor"⟩ ⟨false, 0, "low"⟩).2.map FocusRecord.score).sum /
      ((calculate_focus_score 0 []
        ⟨true, "frontal", true, "center", 3/4, none, none, 0, 0, none⟩
        ⟨0, "poor"⟩ ⟨false, 0, "low"⟩).2.length) : ℚ) := by
  have htot : focusTotal
      ⟨true, "frontal", true, "center", 3/4, none, none, 0, 0, none⟩
      ⟨0, "poor"⟩ ⟨false, 0, "low"⟩ = 135/4 := by
    norm_num [focusTotal, gazeComponent, postureComponent, phonePenaltyOf]
  have hkeep : ((newFocusRecord 0
      ⟨true, "frontal", true, "center", 3/4, none, none, 0, 0, none⟩
      ⟨0, "poor"⟩ ⟨false, 0, "low"⟩).timestamp > (0 : ℚ) - 300) := by
    show (0 : ℚ) > 0 - 300
    norm_num
  have h2 : (calculate_focus_score 0 []
      ⟨true, "frontal", true, "center", 3/4, none, none, 0, 0, none⟩
      ⟨0, "poor"⟩ ⟨false, 0, "low"⟩).2 =
      [newFocusRecord 0
        ⟨true, "frontal", true, "center", 3/4, none, none, 0, 0, none⟩
        ⟨0, "poor"⟩ ⟨false, 0, "low"⟩] := by
    rw [calculate_focus_score_snd, List.nil_append, List.filter_cons,
      if_pos (decide_eq_true hkeep)]
    rfl
  have hfloor : ⌊(675 : ℚ)/2⌋ = 337 := by
    rw [Int.floor_eq_iff]
    norm_num
  have hround : pyRound 1 ((135 : ℚ)/4) = 169/5 := by
    have h10 : (135 : ℚ)/4 * 10 ^ 1 = 675/2 := by norm_num
    unfold pyRound roundHalfEven
    rw [h10, hfloor]
    rw [if_neg (by norm_num), if_neg (by norm_num), if_neg (by norm_num)]
    norm_num
  rw [calculate_focus_score_session_average, h2,
    if_neg (List.cons_ne_nil _ _)]
  simp only [List.map_cons, List.map_nil, List.sum_cons, List.sum_nil,
    List.length_cons, List.length_nil, newFocusRecord, htot]
  rw [show ((135 : ℚ)/4 + 0) / ((0 + 1 : ℕ) : ℚ) = 135/4 by norm_num]
  rw [hround]
  norm_num

/-- C7 (amended): every call appends the current record and retains
exactly the entries strictly within 300 seconds of the current timestamp
(the newest record, under a monotone clock), excluding the exact
300-second boundary; the returned `session_average` is the arithmetic
mean of the retained scores rounded to one decimal (half-to-even). -/
theorem C7_retention_and_average (now : ℚ) (hist : List FocusRecord)
    (obs : FaceObs) (p : PostureObs) (ph : PhoneObs)
    (hmono : ∀ r ∈ hist, r.timestamp ≤ now) :
    (∀ r ∈ (calculate_focus_score now hist obs p ph).2,
        now - r.timestamp < 300 ∧ r.timestamp ≤ now) ∧
    (calculate_focus_score now hist obs p ph).2 =
      (hist ++ [newFocusRecord now obs p ph]).filter
        (fun r => r.timestamp > now - 300) ∧
    (calculate_focus_score now hist obs p ph).1.session_average =
      pyRound 1
        (((calculate_focus_score now hist obs p ph).2.map
            FocusRecord.score).sum /
          (calculate_focus_score now hist obs p ph).2.length) := by
  have hne : (hist ++ [newFocusRecord now obs p ph]).filter
      (fun r => r.timestamp > now - 300) ≠ [] := by
    apply List.ne_nil_of_mem (a := newFocusRecord now obs p ph)
    apply List.mem_filter.mpr
    refine ⟨List.mem_append_right _ (List.mem_singleton_self _), ?_⟩
    simp only [newFocusRecord, decide_eq_true_eq]
    linarith
  refine ⟨?_, rfl, ?_⟩
  · intro r hr
    rw [show (calculate_focus_score now hist obs p ph).2 =
      (hist ++ [newFocusRecord now obs p ph]).filter
        (fun r => r.timestamp > now - 300) from rfl] at hr
    obtain ⟨hmem, hpred⟩ := List.mem_filter.mp hr
    have hgt : r.timestamp > now - 300 := by
      simpa using hpred
    refine ⟨by linarith, ?_⟩
    rcases List.mem_append.mp hmem with hin | hnew
    · exact hmono r hin
    · have hr' : r = newFocusRecord now obs p ph := by simpa using hnew
      rw [hr']
      simp [newFocusRecord]
  · unfold calculate_focus_score
    dsimp only
    rw [if_neg hne]

/-- C7 witness: the amended statement at a concrete call. -/
theorem C7_retention_and_average_witness :
    (∀ r ∈ ([⟨0, 50, 0, 50, 0⟩] : List FocusRecord),
      r.timestamp ≤ (100 : ℚ)) ∧
    ((∀ r ∈ (calculate_focus_score 100 [⟨0, 50, 0, 50, 0⟩]
        ⟨false, "", false, "unknown", 0, none, none, 0, 0, none⟩
        ⟨50, "fair"⟩ ⟨false, 0, "low"⟩).2,
        (100 : ℚ) - r.timestamp < 300 ∧ r.timestamp ≤ 100) ∧
      (calculate_focus_score 100 [⟨0, 50, 0, 50, 0⟩]
        ⟨false, "", false, "unknown", 0, none, none, 0, 0, none⟩
        ⟨50, "fair"⟩ ⟨false, 0, "low"⟩).2 =
        (([⟨0, 50, 0, 50, 0⟩] : List FocusRecord) ++
          [newFocusRecord 100
            ⟨false, "", false, "unknown", 0, none, none, 0, 0, none⟩
            ⟨50, "fair"⟩ ⟨false, 0, "low"⟩]).filter
          (fun r => r.timestamp > 100 - 300) ∧
      (calculate_focus_score 100 [⟨0, 50, 0, 50, 0⟩]
        ⟨false, "", false, "unknown", 0, none, none, 0, 0, none⟩
        ⟨50, "fair"⟩ ⟨false, 0, "low"⟩).1.session_average =
        pyRound 1
          (((calculate_focus_score 100 [⟨0, 50, 0, 50, 0⟩]
              ⟨false, "", false, "unknown", 0, none, none, 0, 0, none⟩
              ⟨50, "fair"⟩ ⟨false, 0, "low"⟩).2.map
              FocusRecord.score).sum /
            (calculate_focus_score 100 [⟨0, 50, 0, 50, 0⟩]
              ⟨false, "", false, "unknown", 0, none, none, 0, 0, none⟩
              ⟨50, "fair"⟩ ⟨false, 0, "low"⟩).2.length)) :=
  ⟨by decide,
    C7_retention_and_average 100 [⟨0, 50, 0, 50, 0⟩]
      ⟨false, "", false, "unknown", 0, none, none, 0, 0, none⟩
      ⟨50, "fair"⟩ ⟨false, 0, "low"⟩ (by decide)⟩

/-- Calling the face detector again with the baseline it just produced,
on the same frame, changes nothing: the baseline is only initialised when
absent, and the size ratio of the initialising call is computed against
the freshly set baseline. -/
theorem detect_face_and_eyes_stable (cfg : MonitorCfg) (b : Option ℕ)
    (s : FrameSig) :
    detect_face_and_eyes cfg (detect_face_and_eyes cfg b s).2 s =
      detect_face_and_eyes cfg b s := by
  unfold detect_face_and_eyes
  cases hfaces : detectFaces cfg s with
  | nil =>
    by_cases hd : cfg.dnnOnly
    · simp [hd]
    · cases hp : s.profiles <;> simp [hd, hp]
  | cons f fs =>
    dsimp only
    unfold frontalObs
    simp

/-- C9: running the same frame through `analyze_frame` twice (with no
other calls in between) yields identical per-call verdicts — focus score
and level, gaze/posture/phone analyses, looking/face flags — even though
the first call may lazily initialise the baseline face size; and the text
and window classifiers are pure, so re-classifying the same input is
literally the same computation.  Only the session history (and hence the
session average), timestamps and the frame count may differ. -/
theorem C9_reanalysis_idempotent (cfg : MonitorCfg) (now1 now2 : ℚ)
    (st : MonState) (s : FrameSig) (t : Text)
    (mdl : Option DistractionModel) (w : Option WindowInfo) :
    ((analyze_frame cfg now2 (analyze_frame cfg now1 st s).2 s).1.focus_score =
        (analyze_frame cfg now1 st s).1.focus_score ∧
      (analyze_frame cfg now2 (analyze_frame cfg now1 st s).2 s).1.focus_level =
        (analyze_frame cfg now1 st s).1.focus_level ∧
      (analyze_frame cfg now2
          (analyze_frame cfg now1 st s).2 s).1.looking_at_screen =
        (analyze_frame cfg now1 st s).1.looking_at_screen ∧
      (analyze_frame cfg now2 (analyze_frame cfg now1 st s).2 s).1.eye_gaze =
        (analyze_frame cfg now1 st s).1.eye_gaze ∧
      (analyze_frame cfg now2
          (analyze_frame cfg now1 st s).2 s).1.face_detected =
        (analyze_frame cfg now1 st s).1.face_detected ∧
      (analyze_frame cfg now2
          (analyze_frame cfg now1 st s).2 s).1.gaze_analysis =
        (analyze_frame cfg now1 st s).1.gaze_analysis ∧
      (analyze_frame cfg now2
          (analyze_frame cfg now1 st s).2 s).1.posture_analysis =
        (analyze_frame cfg now1 st s).1.posture_analysis ∧
      (analyze_frame cfg now2
          (analyze_frame cfg now1 st s).2 s).1.phone_analysis =
        (analyze_frame cfg now1 st s).1.phone_analysis) ∧
    analyze_screen_text t mdl = analyze_screen_text t mdl ∧
    analyze_distraction_from_window w = analyze_distraction_from_window w := by
  have hdet : detect_face_and_eyes cfg
      (detect_face_and_eyes cfg st.baseline_face_size s).2 s =
      detect_face_and_eyes cfg st.baseline_face_size s :=
    detect_face_and_eyes_stable cfg st.baseline_face_size s
  have hb : (analyze_frame cfg now1 st s).2.baseline_face_size =
      (detect_face_and_eyes cfg st.baseline_face_size s).2 := rfl
  have hfs : ∀ (n : ℚ) (st' : MonState),
      (analyze_frame cfg n st' s).1.focus_score =
        pyRound 1 (focusTotal
          (detect_face_and_eyes cfg st'.baseline_face_size s).1
          (analyze_posture s
            (detect_face_and_eyes cfg st'.baseline_face_size s).1)
          (detect_phone_usage
            (detect_face_and_eyes cfg st'.baseline_face_size s).2 s
            (detect_face_and_eyes cfg st'.baseline_face_size s).1)) :=
    fun _ _ => rfl
  have hfl : ∀ (n : ℚ) (st' : MonState),
      (analyze_frame cfg n st' s).1.focus_level =
        focusLevel (focusTotal
          (detect_face_and_eyes cfg st'.baseline_face_size s).1
          (analyze_posture s
            (detect_face_and_eyes cfg st'.baseline_face_size s).1)
          (detect_phone_usage
            (detect_face_and_eyes cfg st'.baseline_face_size s).2 s
            (detect_face_and_eyes cfg st'.baseline_face_size s).1)) :=
    fun _ _ => rfl
  have hga : ∀ (n : ℚ) (st' : MonState),
      (analyze_frame cfg n st' s).1.gaze_analysis =
        (detect_face_and_eyes cfg st'.baseline_face_size s).1 :=
    fun _ _ => rfl
  have hpa : ∀ (n : ℚ) (st' : MonState),
      (analyze_frame cfg n st' s).1.posture_analysis =
        analyze_posture s (detect_face_and_eyes cfg st'.baseline_face_size s).1 :=
    fun _ _ => rfl
  have hph : ∀ (n : ℚ) (st' : MonState),
      (analyze_frame cfg n st' s).1.phone_analysis =
        detect_phone_usage (detect_face_and_eyes cfg st'.baseline_face_size s).2
          s (detect_face_and_eyes cfg st'.baseline_face_size s).1 :=
    fun _ _ => rfl
  have hlk : ∀ (n : ℚ) (st' : MonState),
      (analyze_frame cfg n st' s).1.looking_at_screen =
        (detect_face_and_eyes cfg st'.baseline_face_size s).1.looking_at_screen :=
    fun _ _ => rfl
  have heg : ∀ (n : ℚ) (st' : MonState),
      (analyze_frame cfg n st' s).1.eye_gaze =
        (detect_face_and_eyes cfg st'.baseline_face_size s).1.eye_gaze :=
    fun _ _ => rfl
  have hfd : ∀ (n : ℚ) (st' : MonState),
      (analyze_frame cfg n st' s).1.face_detected =
        (detect_face_and_eyes cfg st'.baseline_face_size s).1.face_detected :=
    fun _ _ => rfl
  refine ⟨⟨?_, ?_, ?_, ?_, ?_, ?_, ?_, ?_⟩, rfl, rfl⟩
  · rw [hfs now2, hfs now1, hb, hdet]
  · rw [hfl now2, hfl now1, hb, hdet]
  · rw [hlk now2, hlk now1, hb, hdet]
  · rw [heg now2, heg now1, hb, hdet]
  · rw [hfd now2, hfd now1, hb, hdet]
  · rw [hga now2, hga now1, hb, hdet]
  · rw [hpa now2, hpa now1, hb, hdet]
  · rw [hph now2, hph now1, hb, hdet]

end WorkspaceAI
